import Mathlib

/-!
Verification of the dynamic flight pricing core
(`src/api/pricing_system.py`, caller `src/api/app.py`).

The Python functions are shallowly embedded as executable Lean
definitions: prices and ratios become `ℚ`, integer fields become `ℤ`,
dict keys that may be absent become `Option` fields read with `Option.getD`
at the defaults the source uses, strings stay `String`/`List Char`, and a
computation that can raise in Python (a pure-float division whose
denominator can be zero) returns `Option`, with `none` at exactly the
raising inputs.  A numpy-scalar division by zero does not raise — it
yields `±inf` with a warning — so the zero-mean branch of the competition
factor is modelled by the finite limit values the threshold chain assigns
to `±inf`.
-/

namespace Pricing

/-! ### String utilities (Python `in` on strings, `[::-1]`, `.upper()`) -/

/-- `startsWith needle hay`: `needle` is a prefix of `hay` (char lists). -/
def startsWith : List Char → List Char → Bool
  | [], _ => true
  | _ :: _, [] => false
  | a :: as, b :: bs => a == b && startsWith as bs

/-- `hasSubstr needle hay` models Python's `needle in hay` on strings. -/
def hasSubstr (needle : List Char) : List Char → Bool
  | [] => startsWith needle []
  | c :: rest => startsWith needle (c :: rest) || hasSubstr needle rest

/-- Python `s.upper()` on a char list. -/
def upper (s : List Char) : List Char := s.map Char.toUpper

/-- Python `s[::-1]` (character-wise string reversal). -/
def strRev (s : String) : String := String.mk s.data.reverse

/-! ### Numeric utilities: `np.clip`, Python `round` (half-to-even), mean -/

/-- `np.clip(x, lo, hi) = min(max(x, lo), hi)`. -/
def npClip (x lo hi : ℚ) : ℚ := min (max x lo) hi

/-- Python's builtin `round` with no digits: round half to even, to `ℤ`.
(`Rat.floor` is used rather than `⌊·⌋` to keep the definition directly
computable by the kernel; the two agree, see `ratFloor_eq`.) -/
def pyRound (x : ℚ) : ℤ :=
  if x - Rat.floor x < 1/2 then Rat.floor x
  else if x - Rat.floor x > 1/2 then Rat.floor x + 1
  else if 2 ∣ Rat.floor x then Rat.floor x else Rat.floor x + 1

/-- `np.mean` of a list of rationals (sum divided by length). -/
def listMean (l : List ℚ) : ℚ := l.sum / (l.length : ℚ)

/-! ### Calendar arithmetic (`datetime.strptime('%Y-%m-%d')`, `.weekday()`,
date subtraction).  `parseDate` models the stdlib parse of a
`YYYY-MM-DD` string: three dash-separated decimal fields that form a
valid proleptic-Gregorian calendar date in `datetime`'s year range. -/

structure Date where
  year : ℤ
  month : ℤ
  day : ℤ
deriving DecidableEq, Repr

def isLeap (y : ℤ) : Bool := (y % 4 == 0 && y % 100 != 0) || (y % 400 == 0)

def daysInMonth (y m : ℤ) : ℤ :=
  if m = 1 ∨ m = 3 ∨ m = 5 ∨ m = 7 ∨ m = 8 ∨ m = 10 ∨ m = 12 then 31
  else if m = 4 ∨ m = 6 ∨ m = 9 ∨ m = 11 then 30
  else if isLeap y then 29 else 28

/-- Split a char list at every dash (Python `s.split('-')`). -/
def splitDash : List Char → List (List Char)
  | [] => [[]]
  | c :: rest =>
      if c = '-' then [] :: splitDash rest
      else match splitDash rest with
        | [] => [[c]]
        | h :: t => (c :: h) :: t

/-- Decimal value of a digit run. -/
def digitsToNat (l : List Char) : ℕ :=
  l.foldl (fun acc c => acc * 10 + (c.toNat - 48)) 0

/-- Parse a nonempty all-digit char list as a decimal number. -/
def parseNat (l : List Char) : Option ℕ :=
  if l ≠ [] ∧ l.all Char.isDigit then some (digitsToNat l) else none

/-- Parse a `"YYYY-MM-DD"` date string; `none` when `datetime.strptime`
would raise `ValueError`. -/
def parseDate (s : String) : Option Date :=
  match (splitDash s.data).map parseNat with
  | [some y, some m, some d] =>
      if 1 ≤ y ∧ y ≤ 9999 ∧ 1 ≤ m ∧ m ≤ 12 ∧ 1 ≤ d ∧
          (d : ℤ) ≤ daysInMonth (y : ℤ) (m : ℤ) then
        some ⟨(y : ℤ), (m : ℤ), (d : ℤ)⟩
      else none
  | _ => none

/-- Julian day number of a Gregorian date (standard formula); used for
date differences and weekday computation. -/
def jdn (dt : Date) : ℤ :=
  let a := Int.ediv (14 - dt.month) 12
  let y := dt.year + 4800 - a
  let m := dt.month + 12 * a - 3
  dt.day + Int.ediv (153 * m + 2) 5 + 365 * y + Int.ediv y 4
    - Int.ediv y 100 + Int.ediv y 400 - 32045

/-- Python `date.weekday()`: Monday = 0, ..., Sunday = 6. -/
def weekday (dt : Date) : ℤ := Int.emod (jdn dt) 7

/-! ### `parse_fare_code` -/

/-- The dict returned by `parse_fare_code`. -/
structure FareSignals where
  cabin_category : ℤ
  fare_rule_number : ℤ
  passenger_type : ℤ
  seasonality_proxy : ℤ
  has_numeric_rule : ℤ
  is_night_fare_proxy : ℤ
  is_weekend_fare_proxy : ℤ
deriving DecidableEq, Repr

/-- The `flight_data` dict: every key the core reads, optional keys as
`Option`.  `searchDate`/`flightDate` are the required date strings.
`cabin_category_override`/`passenger_type_override` are the keys the API
layer (`app.py`) adds when the request carries explicit overrides. -/
structure FlightData where
  searchDate : String
  flightDate : String
  fareBasisCode : Option String := none
  departureHour : Option ℤ := none
  seatsRemaining : Option ℤ := none
  totalTravelDistance : Option ℚ := none
  durationMinutes : Option ℚ := none
  numSegments : Option ℤ := none
  airlineCode : Option String := none
  carrier : Option String := none
  originCity : Option String := none
  startingAirport : Option String := none
  destCity : Option String := none
  destinationAirport : Option String := none
  IS_HOLIDAY : Option ℤ := none
  isBasicEconomy : Option Bool := none
  isNonStop : Option Bool := none
  isRefundable : Option Bool := none
  cabin_category_override : Option ℤ := none
  passenger_type_override : Option ℤ := none
deriving Repr

/-- First character of the uppercased code mapped to a cabin ordinal
(`cabin_map.get(fc[0], 1)`). -/
def cabinMap (c : Char) : ℤ :=
  if c = 'F' ∨ c = 'A' ∨ c = 'P' then 5
  else if c = 'J' ∨ c = 'C' ∨ c = 'D' ∨ c = 'I' ∨ c = 'Z' then 4
  else if c = 'W' then 3
  else if c = 'Y' ∨ c = 'B' ∨ c = 'M' ∨ c = 'H' then 2
  else 1

/-- `re.search(r'(\d+)', fc)`: the first contiguous run of digits. -/
def firstDigitRun : List Char → Option (List Char)
  | [] => none
  | c :: rest => if c.isDigit then some (c :: rest.takeWhile Char.isDigit)
                 else firstDigitRun rest

/-- `parse_fare_code(fare_code, flight_data)` from
`src/api/pricing_system.py`. -/
def parse_fare_code (fare_code : String) (flight_data : FlightData) :
    FareSignals :=
  if fare_code = "" then
    ⟨1, 0, 0, 1, 0, 0, 0⟩
  else
    let fc := upper fare_code.data
    let cabin_category := cabinMap (fc.headD ' ')
    let run := firstDigitRun fc
    let fare_rule_number : ℤ := match run with
      | some ds => (digitsToNat ds : ℤ)
      | none => 0
    let has_numeric_rule : ℤ := if run.isSome then 1 else 0
    let passenger_type : ℤ :=
      if hasSubstr ['C', 'H'] fc then 1
      else if hasSubstr ['I', 'N'] fc ∨ hasSubstr ['I', 'N', 'F'] fc then 2
      else 0
    let seasonality_proxy : ℤ :=
      if hasSubstr ['H'] fc ∧ ¬ hasSubstr ['L', 'H'] fc then 2
      else if hasSubstr ['L'] fc ∧ ¬ hasSubstr ['L', 'H'] fc then 0
      else 1
    let is_night : ℤ := match flight_data.departureHour with
      | some h => if h < 6 ∨ h ≥ 22 then 1 else 0
      | none => if hasSubstr ['N'] fc then 1 else 0
    let is_weekend : ℤ := match parseDate flight_data.flightDate with
      | some dt => if weekday dt ≥ 5 then 1 else 0
      | none => if hasSubstr ['W', 'E'] fc ∨ hasSubstr ['W', 'K'] fc
                then 1 else 0
    ⟨cabin_category, fare_rule_number, passenger_type, seasonality_proxy,
     has_numeric_rule, is_night, is_weekend⟩

/-! ### `create_ml_features` -/

/-- The 23-feature dict built by `create_ml_features`. -/
structure MLFeatures where
  DAYS_UNTIL_FLIGHT : ℤ
  SEATS_REMAINING : ℤ
  TOTAL_TRAVEL_DISTANCE : ℚ
  TRAVEL_DURATION_MINUTES : ℚ
  NUM_SEGMENTS : ℤ
  AIRLINE_CODE : String
  ORIGIN_CITY : String
  DEST_CITY : String
  FLIGHT_YEAR : ℤ
  FLIGHT_MONTH : ℤ
  FLIGHT_DAY_OF_WEEK : ℤ
  IS_WEEKEND : ℤ
  IS_HOLIDAY : ℤ
  IS_BASIC_ECONOMY : ℤ
  IS_NON_STOP : ℤ
  IS_REFUNDABLE : ℤ
  cabin_category : ℤ
  fare_rule_number : ℤ
  passenger_type : ℤ
  seasonality_proxy : ℤ
  has_numeric_rule : ℤ
  is_night_fare_proxy : ℤ
  is_weekend_fare_proxy : ℤ
deriving Repr

/-- `create_ml_features(flight_data)` from `src/api/pricing_system.py`.
Returns `none` exactly when one of the two required date strings fails
to parse (Python: `strptime` raises `ValueError`). -/
def create_ml_features (flight_data : FlightData) : Option MLFeatures :=
  match parseDate flight_data.searchDate, parseDate flight_data.flightDate with
  | some search_date, some flight_date =>
    let days_until_flight := max 0 (jdn flight_date - jdn search_date)
    let flight_weekday := weekday flight_date
    let is_weekend : ℤ := if flight_weekday ≥ 5 then 1 else 0
    let fare_info :=
      parse_fare_code (flight_data.fareBasisCode.getD "") flight_data
    some
      { DAYS_UNTIL_FLIGHT := days_until_flight
        SEATS_REMAINING := flight_data.seatsRemaining.getD 50
        TOTAL_TRAVEL_DISTANCE := flight_data.totalTravelDistance.getD 1000
        TRAVEL_DURATION_MINUTES := flight_data.durationMinutes.getD 180
        NUM_SEGMENTS := flight_data.numSegments.getD 1
        AIRLINE_CODE :=
          flight_data.airlineCode.getD (flight_data.carrier.getD "DL")
        ORIGIN_CITY :=
          flight_data.originCity.getD (flight_data.startingAirport.getD "JFK")
        DEST_CITY :=
          flight_data.destCity.getD (flight_data.destinationAirport.getD "LAX")
        FLIGHT_YEAR := flight_date.year
        FLIGHT_MONTH := flight_date.month
        FLIGHT_DAY_OF_WEEK := flight_weekday
        IS_WEEKEND := is_weekend
        IS_HOLIDAY := flight_data.IS_HOLIDAY.getD 0
        IS_BASIC_ECONOMY := if flight_data.isBasicEconomy.getD false then 1 else 0
        IS_NON_STOP := if flight_data.isNonStop.getD true then 1 else 0
        IS_REFUNDABLE := if flight_data.isRefundable.getD false then 1 else 0
        cabin_category := fare_info.cabin_category
        fare_rule_number := fare_info.fare_rule_number
        passenger_type := fare_info.passenger_type
        seasonality_proxy := fare_info.seasonality_proxy
        has_numeric_rule := fare_info.has_numeric_rule
        is_night_fare_proxy := fare_info.is_night_fare_proxy
        is_weekend_fare_proxy := fare_info.is_weekend_fare_proxy }
  | _, _ => none

/-! ### Pricing context and the five adjustment factors -/

/-- The `context` dict consumed by the adjustment factors; every key is
optional, read with the defaults the source passes to `.get`. -/
structure Context where
  seats_remaining : Option ℚ := none
  total_seats : Option ℚ := none
  days_until_flight : Option ℤ := none
  flight_weekday : Option ℤ := none
  flight_month : Option ℤ := none
  is_weekend : Option ℤ := none
  competitor_prices : Option (List ℚ) := none
  current_price : Option ℚ := none
  ml_prediction : Option ℚ := none
  season : Option String := none
deriving Repr

/-- The four `demand_score +=` increments of `calculate_demand_factor`,
written as a sum of the four conditional contributions. -/
def demandScore (context : Context) : ℚ :=
  (if context.is_weekend.getD 0 = 1 then 0.10 else 0) +
  (if context.flight_month.getD 6 = 6 ∨ context.flight_month.getD 6 = 7 ∨
      context.flight_month.getD 6 = 8 then 0.15
   else if context.flight_month.getD 6 = 12 ∨ context.flight_month.getD 6 = 1
   then 0.15 else 0) +
  (if context.flight_weekday.getD 3 = 5 ∨ context.flight_weekday.getD 3 = 6
   then 0.10 else 0) +
  (if 7 ≤ context.days_until_flight.getD 30 ∧
      context.days_until_flight.getD 30 ≤ 21 then 0.10 else 0)

/-- `calculate_demand_factor(context)`. -/
def calculate_demand_factor (context : Context) : ℚ :=
  npClip (demandScore context) (-0.20) 0.50

/-- The threshold chain of `calculate_inventory_factor`, as a function of
the seats-remaining percentage. -/
def inventoryBracket (seats_remaining_pct : ℚ) : ℚ :=
  if seats_remaining_pct ≤ 2 then 0.50
  else if seats_remaining_pct ≤ 5 then 0.40
  else if seats_remaining_pct ≤ 10 then 0.25
  else if seats_remaining_pct ≤ 15 then 0.15
  else if seats_remaining_pct ≥ 60 then -0.25
  else if seats_remaining_pct ≥ 50 then -0.15
  else if seats_remaining_pct ≥ 40 then -0.10
  else 0

/-- The `seats_remaining_pct` local of `calculate_inventory_factor`:
`(seats_remaining / total_seats) * 100 if total_seats > 0 else 50`. -/
def seatsRemainingPct (seats_remaining total_seats : ℚ) : ℚ :=
  if total_seats > 0 then seats_remaining / total_seats * 100 else 50

/-- `calculate_inventory_factor(context)`.  The source also reads
`context.get('days_until_flight', 30)` and an unused `fill_rate` into
locals it never uses afterwards (dead code, dropped here). -/
def calculate_inventory_factor (context : Context) : ℚ :=
  inventoryBracket
    (seatsRemainingPct (context.seats_remaining.getD 50)
      (context.total_seats.getD 180))

/-- The threshold chain of `calculate_time_factor`, as a function of the
lead time in days. -/
def timeBracket (days_until_flight : ℤ) : ℚ :=
  if days_until_flight ≤ 1 then 0.50
  else if days_until_flight ≤ 3 then 0.30
  else if days_until_flight ≤ 7 then 0.20
  else if days_until_flight ≤ 14 then 0.10
  else if days_until_flight ≥ 60 then -0.10
  else 0

/-- `calculate_time_factor(context)`. -/
def calculate_time_factor (context : Context) : ℚ :=
  timeBracket (context.days_until_flight.getD 30)

/-- The threshold chain of `calculate_competition_factor`, as a function
of `price_diff_pct`. -/
def competitionBracket (price_diff_pct : ℚ) : ℚ :=
  if price_diff_pct > 0.15 then -0.20
  else if price_diff_pct > 0.10 then -0.15
  else if price_diff_pct > 0.05 then -0.08
  else if price_diff_pct < -0.10 then 0.10
  else if price_diff_pct < -0.05 then 0.05
  else 0

/-- `calculate_competition_factor(context)`.  Total: the function never
raises.  When the competitor mean is zero (and `our_price` is not, that
branch having already returned), the Python division at
`pricing_system.py:296` is a numpy-scalar division by zero: `np.mean`
returns `np.float64`, so `price_diff_pct` becomes `+inf` for a positive
`our_price` and `-inf` for a negative one (a `RuntimeWarning`, not an
exception), and the threshold chain then yields `-0.20` resp. `+0.10` —
the limit values of `competitionBracket`, used here directly since `ℚ`
has no infinities. -/
def calculate_competition_factor (context : Context) : ℚ :=
  if context.competitor_prices.getD [] = [] then 0
  else if context.current_price.getD (context.ml_prediction.getD 0) = 0 then 0
  else if listMean (context.competitor_prices.getD []) = 0 then
    (if context.current_price.getD (context.ml_prediction.getD 0) > 0 then
      -0.20 else 0.10)
  else competitionBracket
    ((context.current_price.getD (context.ml_prediction.getD 0) -
        listMean (context.competitor_prices.getD [])) /
      listMean (context.competitor_prices.getD []))

/-- The `season_map` lookup of `calculate_seasonality_factor`
(`season_map.get(season, 0.0)`). -/
def seasonMap (season : String) : ℚ :=
  if season = "peak_summer" then 0.20
  else if season = "peak_winter" then 0.15
  else if season = "shoulder" then 0.05
  else if season = "standard" then 0
  else if season = "off_season" then -0.10
  else 0

/-- `calculate_seasonality_factor(context)`. -/
def calculate_seasonality_factor (context : Context) : ℚ :=
  seasonMap (context.season.getD "standard")

/-! ### `calculate_dynamic_price` -/

/-- The weight configuration dict. -/
structure Config where
  demand_weight : ℚ
  competition_weight : ℚ
  inventory_weight : ℚ
  time_weight : ℚ
  seasonality_weight : ℚ
deriving Repr

/-- `PRICING_CONFIG`, the default weights. -/
def PRICING_CONFIG : Config :=
  { demand_weight := 0.30
    competition_weight := 0.25
    inventory_weight := 0.20
    time_weight := 0.15
    seasonality_weight := 0.10 }

/-- The local `total_adjustment` of `calculate_dynamic_price`: the
weighted sum `weighted_demand + weighted_competition +
weighted_inventory + weighted_time + weighted_seasonality`. -/
def total_adjustment (context : Context) (config : Config) : ℚ :=
  calculate_demand_factor context * config.demand_weight +
  calculate_competition_factor context * config.competition_weight +
  calculate_inventory_factor context * config.inventory_weight +
  calculate_time_factor context * config.time_weight +
  calculate_seasonality_factor context * config.seasonality_weight

/-- The result dict of `calculate_dynamic_price` (the fields the claims
are about: the final price, the reported total adjustment percentage and
the five raw factors). -/
structure PriceResult where
  final_price : ℤ
  total_adjustment_pct : ℚ
  demand : ℚ
  competition : ℚ
  inventory : ℚ
  time : ℚ
  seasonality : ℚ
deriving Repr, DecidableEq

/-- `final_price = round(np.clip(ml_prediction * (1 + total_adjustment),
ml_prediction * 0.7, ml_prediction * 1.5))`. -/
def finalPriceCalc (ml_prediction total_adj : ℚ) : ℤ :=
  pyRound (npClip (ml_prediction * (1 + total_adj)) (ml_prediction * 0.7)
    (ml_prediction * 1.5))

/-- `calculate_dynamic_price(ml_prediction, context, config)`.  Returns
`none` exactly when the Python function raises: the result field
`(final_price - ml_prediction) / ml_prediction * 100` is a pure Python
float division, a `ZeroDivisionError` when `ml_prediction` is zero. -/
def calculate_dynamic_price (ml_prediction : ℚ) (context : Context)
    (config : Config) : Option PriceResult :=
  if ml_prediction = 0 then none
  else some
    { final_price :=
        finalPriceCalc ml_prediction (total_adjustment context config)
      total_adjustment_pct :=
        ((finalPriceCalc ml_prediction (total_adjustment context config) : ℚ) -
          ml_prediction) / ml_prediction * 100
      demand := calculate_demand_factor context
      competition := calculate_competition_factor context
      inventory := calculate_inventory_factor context
      time := calculate_time_factor context
      seasonality := calculate_seasonality_factor context }

/-! ### `calculate_confidence` -/

/-- The fixed allowlist of high-traffic routes. -/
def popular_routes : List String :=
  ["JFK-LAX", "LAX-JFK", "ORD-LAX", "JFK-SFO", "ATL-LAX"]

/-- The integer score accumulated by `calculate_confidence`:
route check (`route in popular_routes or route[::-1] in popular_routes`),
booking-window check, inventory check, price check. -/
def confidenceScore (features : MLFeatures) (ml_prediction : ℚ) : ℤ :=
  let s0 : ℤ := 0
  let route := features.ORIGIN_CITY ++ "-" ++ features.DEST_CITY
  let s1 := if route ∈ popular_routes ∨ strRev route ∈ popular_routes then
              s0 + 2
            else s0
  let days := features.DAYS_UNTIL_FLIGHT
  let s2 := if 7 ≤ days ∧ days ≤ 60 then s1 + 2
            else if 3 ≤ days ∧ days ≤ 90 then s1 + 1
            else s1
  let seats := features.SEATS_REMAINING
  let s3 := if 10 ≤ seats ∧ seats ≤ 150 then s2 + 1 else s2
  let s4 := if 100 ≤ ml_prediction ∧ ml_prediction ≤ 1500 then s3 + 1 else s3
  s4

/-- `calculate_confidence(features, ml_prediction)`. -/
def calculate_confidence (features : MLFeatures) (ml_prediction : ℚ) :
    String :=
  let score := confidenceScore features ml_prediction
  if score ≥ 4 then "High"
  else if score ≥ 2 then "Medium"
  else "Low"

/-! ## Helper lemmas -/

theorem ratFloor_eq (x : ℚ) : Rat.floor x = ⌊x⌋ := by
  rw [Rat.floor_def', Rat.floor_def]

theorem pyRound_ge (x : ℚ) : x - 1/2 ≤ (pyRound x : ℚ) := by
  have h1 : ((⌊x⌋ : ℤ) : ℚ) ≤ x := Int.floor_le x
  have h2 : x < ((⌊x⌋ : ℤ) : ℚ) + 1 := Int.lt_floor_add_one x
  unfold pyRound
  rw [ratFloor_eq]
  split_ifs <;> push_cast <;> linarith

theorem pyRound_le (x : ℚ) : (pyRound x : ℚ) ≤ x + 1/2 := by
  have h1 : ((⌊x⌋ : ℤ) : ℚ) ≤ x := Int.floor_le x
  have h2 : x < ((⌊x⌋ : ℤ) : ℚ) + 1 := Int.lt_floor_add_one x
  unfold pyRound
  rw [ratFloor_eq]
  split_ifs <;> push_cast <;> linarith

theorem npClip_ge (x lo hi : ℚ) (h : lo ≤ hi) : lo ≤ npClip x lo hi := by
  unfold npClip
  rcases le_total x lo with h1 | h1 <;> rcases le_total x hi with h2 | h2 <;>
    simp [min_def, max_def] <;> split_ifs <;> linarith

theorem npClip_le (x lo hi : ℚ) : npClip x lo hi ≤ hi := min_le_right _ _

theorem npClip_eq_self (x lo hi : ℚ) (h1 : lo ≤ x) (h2 : x ≤ hi) :
    npClip x lo hi = x := by
  unfold npClip
  rw [max_eq_left h1, min_eq_left h2]

theorem demandScore_range (c : Context) :
    0 ≤ demandScore c ∧ demandScore c ≤ 0.45 := by
  unfold demandScore
  split_ifs <;> constructor <;> norm_num

theorem demand_factor_range (c : Context) :
    0 ≤ calculate_demand_factor c ∧ calculate_demand_factor c ≤ 0.45 := by
  obtain ⟨h1, h2⟩ := demandScore_range c
  unfold calculate_demand_factor
  rw [npClip_eq_self _ _ _ (by linarith) (by linarith)]
  exact ⟨h1, h2⟩

theorem inventoryBracket_range (p : ℚ) :
    -0.25 ≤ inventoryBracket p ∧ inventoryBracket p ≤ 0.50 := by
  unfold inventoryBracket
  split_ifs <;> constructor <;> norm_num

set_option maxHeartbeats 1000000 in
theorem inventoryBracket_anti (p q : ℚ) (h : p ≤ q) :
    inventoryBracket q ≤ inventoryBracket p := by
  unfold inventoryBracket
  split_ifs <;> linarith

theorem inventory_factor_range (c : Context) :
    -0.25 ≤ calculate_inventory_factor c ∧
      calculate_inventory_factor c ≤ 0.50 := by
  unfold calculate_inventory_factor
  exact inventoryBracket_range _

theorem timeBracket_range (d : ℤ) :
    -0.10 ≤ timeBracket d ∧ timeBracket d ≤ 0.50 := by
  unfold timeBracket
  split_ifs <;> constructor <;> norm_num

theorem time_factor_range (c : Context) :
    -0.10 ≤ calculate_time_factor c ∧ calculate_time_factor c ≤ 0.50 :=
  timeBracket_range _

theorem competitionBracket_range (p : ℚ) :
    -0.20 ≤ competitionBracket p ∧ competitionBracket p ≤ 0.10 := by
  unfold competitionBracket
  split_ifs <;> constructor <;> norm_num

theorem competition_factor_range (c : Context) :
    -0.20 ≤ calculate_competition_factor c ∧
      calculate_competition_factor c ≤ 0.10 := by
  unfold calculate_competition_factor
  split_ifs
  · norm_num
  · norm_num
  · norm_num
  · norm_num
  · exact competitionBracket_range _

theorem seasonMap_range (s : String) :
    -0.10 ≤ seasonMap s ∧ seasonMap s ≤ 0.20 := by
  unfold seasonMap
  split_ifs <;> constructor <;> norm_num

theorem seasonality_factor_range (c : Context) :
    -0.10 ≤ calculate_seasonality_factor c ∧
      calculate_seasonality_factor c ≤ 0.20 :=
  seasonMap_range _

theorem finalPriceCalc_bounds (b t : ℚ) (hb : 0 < b) :
    0.70 * b - 1/2 ≤ (finalPriceCalc b t : ℚ) ∧
      (finalPriceCalc b t : ℚ) ≤ 1.50 * b + 1/2 := by
  have hlh : b * 0.7 ≤ b * 1.5 := by nlinarith
  have h1 := npClip_ge (b * (1 + t)) (b * 0.7) (b * 1.5) hlh
  have h2 := npClip_le (b * (1 + t)) (b * 0.7) (b * 1.5)
  have h3 := pyRound_ge (npClip (b * (1 + t)) (b * 0.7) (b * 1.5))
  have h4 := pyRound_le (npClip (b * (1 + t)) (b * 0.7) (b * 1.5))
  unfold finalPriceCalc
  constructor <;> linarith

/-! Concrete evaluations used by witnesses (Rat arithmetic is opaque to
`decide`, so these are proved with `norm_num`). -/

theorem empty_demand : calculate_demand_factor {} = 3/20 := by
  rw [calculate_demand_factor]
  have h : demandScore {} = 3/20 := by norm_num [demandScore]
  rw [h, npClip_eq_self] <;> norm_num

theorem empty_inventory : calculate_inventory_factor {} = 0 := by
  have h : seatsRemainingPct 50 180 = 250/9 := by
    rw [seatsRemainingPct]; norm_num
  simp only [calculate_inventory_factor, Option.getD_none, h]
  rw [inventoryBracket]; norm_num

theorem empty_time : calculate_time_factor {} = 0 := by
  simp only [calculate_time_factor, Option.getD_none]
  rw [timeBracket]; norm_num

theorem empty_seasonality : calculate_seasonality_factor {} = 0 := by
  simp [calculate_seasonality_factor, seasonMap]

theorem empty_competition : calculate_competition_factor {} = 0 := rfl

theorem empty_total_adjustment :
    total_adjustment {} PRICING_CONFIG = 9/200 := by
  rw [total_adjustment, empty_demand, empty_inventory, empty_time,
    empty_seasonality, empty_competition]
  norm_num [PRICING_CONFIG]

theorem pyRound_209_half : pyRound (209/2 : ℚ) = 104 := by
  have hfl : (⌊(209 : ℚ)/2⌋ : ℤ) = 104 := by norm_num
  rw [pyRound, ratFloor_eq, hfl]
  norm_num

theorem cdp_100_empty : calculate_dynamic_price 100 {} PRICING_CONFIG =
    some ⟨104, 4, 3/20, 0, 0, 0, 0⟩ := by
  have harg : (100 : ℚ) * (1 + total_adjustment {} PRICING_CONFIG) =
      209/2 := by
    rw [empty_total_adjustment]; norm_num
  have hclip : npClip ((100 : ℚ) * (1 + total_adjustment {} PRICING_CONFIG))
      (100 * 0.7) (100 * 1.5) = 209/2 := by
    rw [harg, npClip_eq_self] <;> norm_num
  have hfp : finalPriceCalc 100 (total_adjustment {} PRICING_CONFIG) =
      104 := by
    rw [finalPriceCalc, hclip, pyRound_209_half]
  rw [calculate_dynamic_price]
  simp only [show (100 : ℚ) ≠ 0 by norm_num, if_neg, ite_false,
    Option.some.injEq]
  rw [PriceResult.mk.injEq]
  refine ⟨hfp, ?_, empty_demand, empty_competition, empty_inventory,
    empty_time, empty_seasonality⟩
  rw [hfp]; norm_num

/-! ## Claims -/

/-- Claim C1: for every base price `b > 0`, every pricing context and any
weight configuration, a final price returned by `calculate_dynamic_price`
satisfies `0.70 * b ≤ final_price ≤ 1.50 * b` up to the half-unit slack
of rounding to the nearest whole currency unit after clipping. -/
theorem claim_C1_final_price_bounds (b : ℚ) (ctx : Context)
    (config : Config) (res : PriceResult) (hb : 0 < b)
    (h : calculate_dynamic_price b ctx config = some res) :
    0.70 * b - 1/2 ≤ (res.final_price : ℚ) ∧
      (res.final_price : ℚ) ≤ 1.50 * b + 1/2 := by
  unfold calculate_dynamic_price at h
  split_ifs at h with hml
  rw [Option.some.injEq] at h
  subst h
  exact finalPriceCalc_bounds b _ hb

/-- Witness for C1 at base price 100 and the empty context. -/
theorem claim_C1_witness :
    0.70 * (100 : ℚ) - 1/2 ≤ (((104 : ℤ) : ℚ)) ∧
      (((104 : ℤ) : ℚ)) ≤ 1.50 * (100 : ℚ) + 1/2 :=
  claim_C1_final_price_bounds 100 {} PRICING_CONFIG
    ⟨104, 4, 3/20, 0, 0, 0, 0⟩ (by norm_num) cdp_100_empty

/-- Claim C5: for a fixed positive total seat count, the inventory
adjustment of `calculate_inventory_factor` is antitone in the remaining
seat count: fewer seats remaining never yields a smaller adjustment. -/
theorem claim_C5_inventory_monotone (c1 c2 : Context) (T s1 s2 : ℚ)
    (hT1 : c1.total_seats = some T) (hT2 : c2.total_seats = some T)
    (hT : 0 < T) (hs1 : c1.seats_remaining = some s1)
    (hs2 : c2.seats_remaining = some s2) (h12 : s1 ≤ s2) :
    calculate_inventory_factor c2 ≤ calculate_inventory_factor c1 := by
  unfold calculate_inventory_factor
  rw [hT1, hT2, hs1, hs2]
  simp only [Option.getD_some]
  apply inventoryBracket_anti
  unfold seatsRemainingPct
  rw [if_pos hT, if_pos hT]
  have hdiv : s1 / T ≤ s2 / T := by gcongr
  linarith

/-- Witness for C5: 1 of 100 seats remaining prices at least as high as
90 of 100 seats remaining. -/
theorem claim_C5_witness :
    calculate_inventory_factor
        { seats_remaining := some 90, total_seats := some 100 } ≤
      calculate_inventory_factor
        { seats_remaining := some 1, total_seats := some 100 } :=
  claim_C5_inventory_monotone _ _ 100 1 90 rfl rfl (by norm_num) rfl rfl
    (by norm_num)

/-- Claim C10: the inventory factor depends only on the
`seats_remaining` and `total_seats` fields of the context; two contexts
agreeing on those two fields (and differing arbitrarily elsewhere, e.g.
in `days_until_flight`, which the source reads but never uses) receive
the same adjustment. -/
theorem claim_C10_inventory_noninterference (c1 c2 : Context)
    (hs : c1.seats_remaining = c2.seats_remaining)
    (ht : c1.total_seats = c2.total_seats) :
    calculate_inventory_factor c1 = calculate_inventory_factor c2 := by
  unfold calculate_inventory_factor
  rw [hs, ht]

/-- Witness for C10: two contexts that differ only in
`days_until_flight`. -/
theorem claim_C10_witness :
    calculate_inventory_factor
        { seats_remaining := some 10, total_seats := some 100,
          days_until_flight := some 1 } =
      calculate_inventory_factor
        { seats_remaining := some 10, total_seats := some 100,
          days_until_flight := some 99 } :=
  claim_C10_inventory_noninterference _ _ rfl rfl

/-- Counterexample for C4: with `total_seats = 0` the percentage
defaults to the midpoint 50, which falls into the `>= 50` surplus
bracket, so `calculate_inventory_factor` returns `-0.15` — not the
`0.0` a no-bracket ("neutral default") position receives in the
threshold table. -/
theorem claim_C4_counterexample :
    calculate_inventory_factor { total_seats := some 0 } = -0.15 ∧
      (-0.15 : ℚ) ≠ 0 := by
  constructor
  · simp only [calculate_inventory_factor, Option.getD_some,
      Option.getD_none]
    rw [seatsRemainingPct, if_neg (by norm_num)]
    rw [inventoryBracket]; norm_num
  · norm_num

/-- Claim C4 (amended): with `total_seats = 0`,
`calculate_inventory_factor` does not raise: the seats-remaining
percentage defaults to the neutral midpoint 50, and the function returns
the value of the bracket table at 50, which is the `>= 50` bracket's
`-0.15` (not the table's `0.0` else-branch default). -/
theorem claim_C4_amended (ctx : Context) (h : ctx.total_seats = some 0) :
    calculate_inventory_factor ctx = inventoryBracket 50 ∧
      calculate_inventory_factor ctx = -0.15 := by
  have hpct : seatsRemainingPct (ctx.seats_remaining.getD 50) 0 = 50 := by
    rw [seatsRemainingPct, if_neg (by norm_num)]
  have hb : inventoryBracket 50 = -0.15 := by
    rw [inventoryBracket]; norm_num
  unfold calculate_inventory_factor
  rw [h]
  constructor
  · simp only [Option.getD_some, hpct]
  · simp only [Option.getD_some, hpct, hb]

/-- Witness for the amended C4 at a concrete zero-capacity context. -/
theorem claim_C4_witness :
    calculate_inventory_factor { total_seats := some 0 } =
        inventoryBracket 50 ∧
      calculate_inventory_factor { total_seats := some 0 } = -0.15 :=
  claim_C4_amended { total_seats := some 0 } rfl

/-- Claim C7 (code_bug evidence): the guard in
`calculate_competition_factor` does return a neutral `0.0` when the
reference price is zero; but `calculate_dynamic_price` with
`ml_prediction = 0` raises (models as `none`) at the
`(final_price - ml_prediction) / ml_prediction * 100` result field
instead of reporting a neutral zero adjustment. -/
theorem claim_C7_zero_base_price (ctx : Context)
    (h : ctx.current_price.getD (ctx.ml_prediction.getD 0) = 0) :
    calculate_competition_factor ctx = 0 ∧
      calculate_dynamic_price 0 ctx PRICING_CONFIG = none := by
  constructor
  · unfold calculate_competition_factor
    by_cases hA : ctx.competitor_prices.getD [] = []
    · rw [if_pos hA]
    · rw [if_neg hA, if_pos h]
  · unfold calculate_dynamic_price
    exact if_pos rfl

/-- Witness for C7 at the empty context (no explicit prices, so the
reference price defaults to 0). -/
theorem claim_C7_witness :
    calculate_competition_factor {} = 0 ∧
      calculate_dynamic_price 0 {} PRICING_CONFIG = none :=
  claim_C7_zero_base_price {} rfl

/-- Claim C9: under the default weights, for every context the total
adjustment lies in `[-0.125, 0.355]`, strictly inside `(-0.30, +0.50)`;
hence for any nonnegative base price the safety clip leaves the adjusted
price unchanged. -/
theorem claim_C9_default_weights_interior (ctx : Context) (b : ℚ)
    (hb : 0 ≤ b) :
    (-0.125 ≤ total_adjustment ctx PRICING_CONFIG ∧
      total_adjustment ctx PRICING_CONFIG ≤ 0.355) ∧
      npClip (b * (1 + total_adjustment ctx PRICING_CONFIG)) (b * 0.7)
          (b * 1.5) =
        b * (1 + total_adjustment ctx PRICING_CONFIG) := by
  obtain ⟨hd1, hd2⟩ := demand_factor_range ctx
  obtain ⟨hc1, hc2⟩ := competition_factor_range ctx
  obtain ⟨hi1, hi2⟩ := inventory_factor_range ctx
  obtain ⟨htm1, htm2⟩ := time_factor_range ctx
  obtain ⟨hs1, hs2⟩ := seasonality_factor_range ctx
  have hrange : -0.125 ≤ total_adjustment ctx PRICING_CONFIG ∧
      total_adjustment ctx PRICING_CONFIG ≤ 0.355 := by
    rw [total_adjustment]
    simp only [PRICING_CONFIG]
    constructor <;> nlinarith
  refine ⟨hrange, npClip_eq_self _ _ _ ?_ ?_⟩ <;>
    nlinarith [hrange.1, hrange.2]

/-- Witness for C9 at the empty context and base price 2. -/
theorem claim_C9_witness :
    ((-0.125 ≤ total_adjustment {} PRICING_CONFIG ∧
        total_adjustment {} PRICING_CONFIG ≤ 0.355) ∧
      npClip (2 * (1 + total_adjustment {} PRICING_CONFIG)) (2 * 0.7)
          (2 * 1.5) =
        2 * (1 + total_adjustment {} PRICING_CONFIG)) :=
  claim_C9_default_weights_interior {} 2 (by norm_num)

/-- The `f"{ORIGIN_CITY}-{DEST_CITY}"` route string of
`calculate_confidence`. -/
def routeOf (features : MLFeatures) : String :=
  features.ORIGIN_CITY ++ "-" ++ features.DEST_CITY

/-- A request from LAX to ORD with every other confidence signal turned
off: zero lead time, zero seats, zero price. -/
def laxOrdFeatures : MLFeatures :=
  { DAYS_UNTIL_FLIGHT := 0, SEATS_REMAINING := 0, TOTAL_TRAVEL_DISTANCE := 0,
    TRAVEL_DURATION_MINUTES := 0, NUM_SEGMENTS := 0, AIRLINE_CODE := "",
    ORIGIN_CITY := "LAX", DEST_CITY := "ORD", FLIGHT_YEAR := 0,
    FLIGHT_MONTH := 0, FLIGHT_DAY_OF_WEEK := 0, IS_WEEKEND := 0,
    IS_HOLIDAY := 0, IS_BASIC_ECONOMY := 0, IS_NON_STOP := 0,
    IS_REFUNDABLE := 0, cabin_category := 0, fare_rule_number := 0,
    passenger_type := 0, seasonality_proxy := 0, has_numeric_rule := 0,
    is_night_fare_proxy := 0, is_weekend_fare_proxy := 0 }

/-- Counterexample for C3: for origin LAX and destination ORD the
airport-swapped route "ORD-LAX" is in the allowlist, yet
`calculate_confidence` awards no route points: the code checks the
character-wise reversal `route[::-1]` ("DRO-XAL"), not the airport swap,
so the total score stays 0 and the label is "Low" (the claim predicts
+2 and hence "Medium"). -/
theorem claim_C3_counterexample :
    ("ORD-LAX" ∈ popular_routes) ∧
      ¬ ("LAX-ORD" ∈ popular_routes) ∧
      strRev "LAX-ORD" = "DRO-XAL" ∧
      confidenceScore laxOrdFeatures 0 = 0 ∧
      calculate_confidence laxOrdFeatures 0 = "Low" := by
  refine ⟨by decide, by decide, by decide, by decide, by decide⟩

/-- Claim C3 (amended): the route-popularity check of
`calculate_confidence` awards +2 exactly when the request's
`"ORIGIN-DEST"` string, or its character-wise reversal (`route[::-1]`,
not an airport swap), is in the fixed allowlist; the score decomposes
into that bonus plus the booking-window, inventory and price checks. -/
theorem claim_C3_amended (f : MLFeatures) (p : ℚ) :
    confidenceScore f p =
      (if routeOf f ∈ popular_routes ∨ strRev (routeOf f) ∈ popular_routes
       then 2 else 0) +
      ((if 7 ≤ f.DAYS_UNTIL_FLIGHT ∧ f.DAYS_UNTIL_FLIGHT ≤ 60 then 2
        else if 3 ≤ f.DAYS_UNTIL_FLIGHT ∧ f.DAYS_UNTIL_FLIGHT ≤ 90 then 1
        else 0) +
       ((if 10 ≤ f.SEATS_REMAINING ∧ f.SEATS_REMAINING ≤ 150 then 1 else 0) +
        (if 100 ≤ p ∧ p ≤ 1500 then 1 else 0))) := by
  simp only [confidenceScore, routeOf]
  split_ifs <;> omega

/-- Claim C6: the seasonality proxy of `parse_fare_code` is 1 whenever
the uppercased code contains the substring "LH" (the escape hatch), 2
when it contains "H" without "LH", 0 when it contains "L" without "LH"
(and no such "H"), and 1 otherwise; in particular `"LH2"` parses to 1. -/
theorem claim_C6_seasonality_quirk (code : String) (fd : FlightData) :
    (parse_fare_code code fd).seasonality_proxy =
      (if hasSubstr ['L', 'H'] (upper code.data) then 1
       else if hasSubstr ['H'] (upper code.data) then 2
       else if hasSubstr ['L'] (upper code.data) then 0
       else 1) ∧
    (parse_fare_code "LH2" fd).seasonality_proxy = 1 := by
  constructor
  · by_cases he : code = ""
    · subst he
      rw [parse_fare_code, if_pos rfl]
      norm_num [upper, hasSubstr, startsWith]
    · rw [parse_fare_code, if_neg he]
      by_cases hLH : hasSubstr ['L', 'H'] (upper code.data) <;>
        by_cases hH : hasSubstr ['H'] (upper code.data) <;>
          by_cases hL : hasSubstr ['L'] (upper code.data) <;>
            simp [hLH, hH, hL]
  · rfl

/-- A booking request carrying explicit cabin-category and
passenger-type overrides alongside fare code "Y14" (which parses to
cabin 2, adult passenger). -/
def overrideRequest (v w : ℤ) : FlightData :=
  { searchDate := "2025-06-01", flightDate := "2025-07-01",
    fareBasisCode := some "Y14",
    cabin_category_override := some v,
    passenger_type_override := some w }

/-- Claim C2 (code_bug evidence): whatever override values the request
carries, `create_ml_features` emits the values parsed from the fare
code — the `cabin_category_override` / `passenger_type_override` keys
the API layer stores are never read. -/
theorem claim_C2_overrides_ignored (v w : ℤ) :
    (create_ml_features (overrideRequest v w)).map
        (fun f => (f.cabin_category, f.passenger_type)) = some (2, 0) := rfl

/-- Claim C8: `create_ml_features` succeeds exactly when both required
date strings parse, and on success every missing optional field is
resolved to its documented default (seats 50, distance 1000, duration
180, segments 1, carrier "DL", origin "JFK", destination "LAX"). -/
theorem claim_C8_defaults (fd : FlightData) :
    ((create_ml_features fd).isSome ↔
      ((parseDate fd.searchDate).isSome ∧ (parseDate fd.flightDate).isSome)) ∧
    ∀ f, create_ml_features fd = some f →
      (fd.seatsRemaining = none → f.SEATS_REMAINING = 50) ∧
      (fd.totalTravelDistance = none → f.TOTAL_TRAVEL_DISTANCE = 1000) ∧
      (fd.durationMinutes = none → f.TRAVEL_DURATION_MINUTES = 180) ∧
      (fd.numSegments = none → f.NUM_SEGMENTS = 1) ∧
      (fd.airlineCode = none → fd.carrier = none → f.AIRLINE_CODE = "DL") ∧
      (fd.originCity = none → fd.startingAirport = none →
        f.ORIGIN_CITY = "JFK") ∧
      (fd.destCity = none → fd.destinationAirport = none →
        f.DEST_CITY = "LAX") := by
  rcases hs : parseDate fd.searchDate with _ | ds <;>
    rcases hf : parseDate fd.flightDate with _ | df <;>
      constructor <;> simp only [create_ml_features, hs, hf] <;>
        try simp
  refine ⟨fun h => ?_, fun h => ?_, fun h => ?_, fun h => ?_,
    fun h1 h2 => ?_, fun h1 h2 => ?_, fun h1 h2 => ?_⟩ <;> simp_all

/-- A request with both dates present and every optional field
missing. -/
def bareRequest : FlightData :=
  { searchDate := "2025-01-01", flightDate := "2025-03-01" }

/-- Witness for C8 at `bareRequest`. -/
theorem claim_C8_witness :
    (create_ml_features bareRequest).isSome ∧
    ∃ f, create_ml_features bareRequest = some f ∧
      f.SEATS_REMAINING = 50 ∧ f.TOTAL_TRAVEL_DISTANCE = 1000 ∧
      f.TRAVEL_DURATION_MINUTES = 180 ∧ f.NUM_SEGMENTS = 1 ∧
      f.AIRLINE_CODE = "DL" ∧ f.ORIGIN_CITY = "JFK" ∧
      f.DEST_CITY = "LAX" := by
  obtain ⟨h1, h2⟩ := claim_C8_defaults bareRequest
  have hsome : (create_ml_features bareRequest).isSome :=
    h1.mpr ⟨by decide, by decide⟩
  obtain ⟨f, hfeq⟩ := Option.isSome_iff_exists.mp hsome
  obtain ⟨d1, d2, d3, d4, d5, d6, d7⟩ := h2 f hfeq
  exact ⟨hsome, f, hfeq, d1 rfl, d2 rfl, d3 rfl, d4 rfl, d5 rfl rfl,
    d6 rfl rfl, d7 rfl rfl⟩

end Pricing
